import Mathlib

/-!
Shallow embedding of the EMFI testing framework (`emfi_framework.py`) and
proofs about its generator controller, target listener, scan controller,
checkpointing and event handlers.

Conventions: Python ints are modelled as `Int` (or `Nat` for counters that
the code only ever increments from zero), Python lists as `List`, Python
`None`-able values as `Option`, and code that can raise as `Except`/`Option`.
Logging, sleeping and the hardware I/O layer carry no state that the claims
depend on and are omitted; where a device response matters it is passed in
as an explicit observation.
-/

namespace Emfi

/-! ### Generator controller: disable stack (`CS_Connector`, lines 2369-2499) -/

/-- State of `CS_Connector` relevant to the arm/disarm protocol:
`self.disable_requests` (a Python list of reason strings, append/remove/pop)
and `self.enabled` (the requested arm state). -/
structure CSState where
  disable_requests : List String
  enabled : Bool
deriving DecidableEq

/-- State effect of `CS_Connector.arm(arm, reason)` (lines 2656-2665): when
arming with a non-empty disable queue the queue is cleared with a warning,
and `self.enabled` is set to the requested value. The device retry loop that
follows does not change these two fields. -/
def arm (s : CSState) (a : Bool) : CSState :=
  let s1 := if a = true ∧ s.disable_requests ≠ [] then { s with disable_requests := [] } else s
  { s1 with enabled := a }

/-- `CS_Connector.request_disable(reason)` (lines 2468-2480). Returns the new
state and whether a disarm command was issued (`arm(False, reason)` is called
exactly when `self.enabled` holds); the reason is appended in every case,
duplicates included. -/
def request_disable (s : CSState) (reason : String) : CSState × Bool :=
  let t := if s.enabled = true then (arm s false, true) else (s, false)
  ({ t.1 with disable_requests := t.1.disable_requests ++ [reason] }, t.2)

/-- `CS_Connector.release_disable(reason)` (lines 2482-2499). Returns the new
state and whether an arm command was issued. An empty stack is only warned
about; a present reason is removed (first occurrence, Python `list.remove`);
an absent reason pops the last element (Python `list.pop`). `arm(True, reason)`
is called exactly when the stack is empty afterwards. -/
def release_disable (s : CSState) (reason : String) : CSState × Bool :=
  let s1 :=
    if s.disable_requests = [] then s
    else if reason ∈ s.disable_requests then
      { s with disable_requests := s.disable_requests.erase reason }
    else
      { s with disable_requests := s.disable_requests.dropLast }
  if s1.disable_requests = [] then (arm s1 true, true) else (s1, false)

/-- A call in a `request_disable`/`release_disable` sequence. -/
inductive CSOp where
  | request (reason : String)
  | release (reason : String)

/-- Apply one disable-stack call, dropping the issued-command flag. -/
def applyCSOp (s : CSState) (op : CSOp) : CSState :=
  match op with
  | .request r => (request_disable s r).1
  | .release r => (release_disable s r).1

/-- Run a sequence of disable-stack calls. -/
def runCSOps (s : CSState) (ops : List CSOp) : CSState :=
  ops.foldl applyCSOp s

/-- The disable stack left behind by `release_disable` before the arm check:
unchanged when empty, first occurrence of the reason removed when present,
last element popped otherwise. -/
def releasedStack (s : CSState) (reason : String) : List String :=
  if s.disable_requests = [] then s.disable_requests
  else if reason ∈ s.disable_requests then s.disable_requests.erase reason
  else s.disable_requests.dropLast

/-- The disable-stack invariant: the generator is armed iff the stack is empty. -/
def csArmedIffEmpty (s : CSState) : Prop :=
  s.enabled = true ↔ s.disable_requests = []

instance (s : CSState) : Decidable (csArmedIffEmpty s) := by
  unfold csArmedIffEmpty; infer_instance

/-! ### Scan controller: raster pattern (`jog`, lines 1197-1258) -/

/-- Scan direction (`DIRECTION`, either `"right"` or `"left"`). -/
inductive Dir where
  | left
  | right
deriving DecidableEq

/-- Direction flip performed when a row is finished. -/
def flipDir : Dir → Dir
  | .right => .left
  | .left => .right

/-- Scan configuration: `STEP_SIZE` and the X/Y boundaries
(`BOUNDARIES["X"]["LEFT"/"RIGHT"]`, `BOUNDARIES["Y"]["DOWN"]`). The source
stores these as floats; the arithmetic performed on them (repeated addition
and subtraction of the step) is exact for the integral values considered, so
they are modelled as integers. -/
structure ScanParams where
  step : Int
  xLeft : Int
  xRight : Int
  yDown : Int

/-- Position-selection state of the raster scan: `CURRENT_POSITION` X/Y and
`DIRECTION`. -/
structure ScanState where
  x : Int
  y : Int
  dir : Dir
deriving DecidableEq

/-- Position-selection logic of `jog` (lines 1229-1252): moving `right`
decreases X toward the right boundary, moving `left` increases X toward the
left boundary; at an X boundary Y decreases by one step and the direction
flips; when Y would pass its lower boundary the scan is finished (`none`). -/
def jogStep (p : ScanParams) (s : ScanState) : Option ScanState :=
  if (s.dir = .right ∧ s.x - p.step < p.xRight) ∨ (s.dir = .left ∧ s.x + p.step > p.xLeft) then
    if s.y - p.step < p.yDown then
      none
    else
      some { x := s.x, y := s.y - p.step, dir := flipDir s.dir }
  else
    match s.dir with
    | .right => some { s with x := s.x - p.step }
    | .left => some { s with x := s.x + p.step }

/-- Positions visited by iterating `jogStep` from a starting state, paired
with whether the scan terminated within the given fuel. Each call to `jog`
advances to one new position; the starting position is visited first. -/
def scanTrajectory (p : ScanParams) : Nat → ScanState → List (Int × Int) × Bool
  | 0, s => ([(s.x, s.y)], false)
  | fuel + 1, s =>
    match jogStep p s with
    | none => ([(s.x, s.y)], true)
    | some s2 =>
      let r := scanTrajectory p fuel s2
      ((s.x, s.y) :: r.1, r.2)

/-- Spec-side definition (from the claim's words, for comparison with the
trajectory computed from the source): row `i` of an 11x11 boustrophedon grid,
X from 10 down to 0 on even rows and back on odd rows, Y descending from 10. -/
def boustrophedonRow (i : Nat) : List (Int × Int) :=
  if i % 2 = 0 then (List.range 11).map (fun j => (((10 - j : Int)), ((10 - i : Int))))
  else (List.range 11).map (fun j => (((j : Int)), ((10 - i : Int))))

/-- Spec-side definition: the full 121-cell boustrophedon order claimed for
boundaries X:[10,0], Y:[10,0], step 1, starting at (10,10) heading right. -/
def boustrophedonOrder : List (Int × Int) :=
  ((List.range 11).map boustrophedonRow).flatten

/-! ### Per-position try budget (`onSignature`, lines 1437-1562; `jog`, line 1208) -/

/-- Effect of one processed signature event on `TRIES_LEFT_PER_POSITION`
(lines 1448-1454 early return while the generator is disabled, lines
1539-1552 otherwise): with the budget at 1 or below and movement allowed,
`jog` runs and unconditionally resets the budget to `TRIES_PER_POSITION`
(line 1208); otherwise the budget is decremented. Modelled on `Int` because
Python integers can go negative. -/
def onSignature_tries (csEnabled allowMovement : Bool) (triesPerPosition t : Int) : Int :=
  if csEnabled = false then t
  else if t ≤ 1 ∧ allowMovement = true then triesPerPosition
  else t - 1

/-! ### Generator parameter validation (`CS_Connector.change`, lines 2881-2947) -/

/-- The last-known-good generator parameters touched by the voltage branch of
`change`: `FAULT_VOLTAGE` and `DEAD_TIME`. -/
structure ChangeState where
  faultVoltage : Int
  deadTime : Int
deriving DecidableEq

/-- Voltage branch of `CS_Connector.change` (lines 2908-2925): a negative (or
non-numeric) request, a request outside `[minV, maxV]`, or one whose worst
case charge time `voltage // 30 + 1` exceeds the current dead-time is
rejected with a logged error/warning and no state change; otherwise
`FAULT_VOLTAGE` is updated and the value is written to the device. The
returned flag records whether a device write happened. -/
def change_voltage (minV maxV : Int) (st : ChangeState) (v : Int) : ChangeState × Bool :=
  if v < 0 then (st, false)
  else if v < minV ∨ v > maxV then (st, false)
  else if Int.fdiv v 30 + 1 > st.deadTime then (st, false)
  else ({ st with faultVoltage := v }, true)

/-! ### Generator self-heal (`CS_Connector.selfheal`, lines 2806-2876) -/

/-- Device condition observed by one iteration of the self-heal loop:
`is_connected()` (which catches its own errors and returns a plain boolean),
the `state == 'fault'` probe at line 2834, and the arm/disarm-mismatch probe
at line 2847. The two `state` probes can raise a device exception; `none`
models the probe raising, which sends the iteration through the loop's
`except` branch (lines 2858-2868): reset the device and continue with
`failed_on` unchanged. The repairs themselves (`reconnect`, `clear_faults`,
`arm`, `reset`) catch their own errors or run after `failed_on` was already
assigned, so an exception inside them coincides with one of the modelled
continuation states. -/
structure HealObs where
  connected : Bool
  faultState : Option Bool
  armMismatch : Option Bool

/-- The `selfheal` diagnostic loop (lines 2806-2876), with the device's
responses per iteration supplied as an observation stream. A failed
connectivity check repairs (or, failing twice, resets) and restarts the
loop; a fault state is cleared (or escalates to reset) and checking
continues; an arm mismatch is re-armed (or escalates to reset); a probe that
raises takes the `except` branch (lines 2858-2868): the device is reset and
the loop restarts with `failed_on` unchanged, so such a reset repair is
invisible to the return value. An iteration that falls through every check
without raising returns: `True` if `failed_on` is still empty, `False`
otherwise. The source's iteration cap only sets the global stop flag without
leaving the loop, so termination is modelled by fuel (`none` = loop still
running). -/
def selfhealLoop (obs : Nat → HealObs) : Nat → Nat → String → Option Bool
  | 0, _, _ => none
  | fuel + 1, i, failedOn =>
    let o := obs i
    if o.connected = false then
      selfhealLoop obs fuel (i + 1) "connection"
    else
      match o.faultState with
      | none => selfhealLoop obs fuel (i + 1) failedOn
      | some fs =>
        if fs = true ∧ failedOn = "fault" then
          selfhealLoop obs fuel (i + 1) "fault"
        else
          let f1 := if fs = true then "fault" else failedOn
          match o.armMismatch with
          | none => selfhealLoop obs fuel (i + 1) f1
          | some am =>
            if am = true ∧ f1 = "arm" then
              selfhealLoop obs fuel (i + 1) "arm"
            else
              let f2 := if am = true then "arm" else f1
              some (f2 == "")

/-- `CS_Connector.selfheal()` entry point: loop from iteration 0 with
`failed_on = ""`. -/
def selfheal (obs : Nat → HealObs) (fuel : Nat) : Option Bool :=
  selfhealLoop obs fuel 0 ""

/-- An iteration whose observation completes all three diagnostic checks
with every check passing: connected, no fault, arm state as requested. -/
def healAllPass (o : HealObs) : Prop :=
  o.connected = true ∧ o.faultState = some false ∧ o.armMismatch = some false

/-- An iteration that neither fails a check nor completes the pass: it is
connected, and a `state` probe raises before any check failure is recorded
(either the fault probe raises, or the fault check passes and the arm probe
raises). Such an iteration resets the device via the `except` branch and
leaves an empty `failed_on` empty. -/
def healPreservesEmpty (o : HealObs) : Prop :=
  o.connected = true ∧
    (o.faultState = none ∨ (o.faultState = some false ∧ o.armMismatch = none))

/-! ### Target listener: recovery escalation (`SerialTarget`, lines 1814-2367) -/

/-- `OperationalState` (lines 1802-1812). -/
inductive OperationalState where
  | NORMAL
  | FIRST_UNPARSEABLE
  | CS_DISABLED
  | STARTED_FIRST_RESET
  | IN_FIRST_RESET
  | AFTER_FIRST_RESET
  | STARTED_SECOND_RESET
  | IN_SECOND_RESET
  | AFTER_SECOND_RESET
  | TRYING_BAUDRATES
deriving DecidableEq

/-- Listener configuration: `TARGET_BAUDRATE`, `ALTERNATIVE_BAUDRATE`
(optional), the `--dryrun` flag, `AUTO_RESET_TARGET` and
`TRIES_PER_POSITION`. -/
structure ListenerCfg where
  target_baudrate : Nat
  alternative_baudrate : Option Nat
  dryrun : Bool
  auto_reset_target : Bool
  tries_per_position : Nat

/-- `SerialTarget` state relevant to the recovery ladder: the operational
state, `self.baudrate`, the baud rate of the currently open connection, the
three unparseable/recovery counters, and the generator controller state it
drives via `request_disable`/`release_disable`. -/
structure ListenerState where
  target_state : OperationalState
  baudrate : Nat
  conn_baudrate : Nat
  unparseables_pv : Nat
  unparseables_row : Nat
  recovery_attempts : Nat
  cs : CSState
deriving DecidableEq

/-- One escalation step of the recovery ladder. -/
inductive EscStep where
  | baudSwitch
  | csDisable
  | targetReset
deriving DecidableEq

/-- State effect of `SerialTarget.reset()` (lines 1942-1985, success path):
requests a generator disable with reason `"target_reset"` and moves to
`STARTED_SECOND_RESET` when coming from `AFTER_FIRST_RESET`, otherwise to
`STARTED_FIRST_RESET`. -/
def targetResetEffect (s : ListenerState) : ListenerState :=
  { s with
    cs := (request_disable s.cs "target_reset").1
    target_state :=
      if s.target_state = .AFTER_FIRST_RESET then .STARTED_SECOND_RESET
      else .STARTED_FIRST_RESET }

/-- `SerialTarget._check_voltage_reduction` (lines 2208-2228): once the
per-position/voltage unparseable count reaches `max(TRIES_PER_POSITION // 3,
10)`, the counters are reset and the voltage is stepped down via
`CS.change(voltage=...)` (which zeroes the per-position counters, lines
2917-2918) or, at the floor, the position is abandoned via `jog` (which also
zeroes them, lines 1205-1207). Only the counter effect is modelled here; the
voltage value itself is not part of the escalation-ladder state. -/
def check_voltage_reduction (cfg : ListenerCfg) (s : ListenerState) : ListenerState :=
  if s.unparseables_pv ≥ max (cfg.tries_per_position / 3) 10 then
    { s with unparseables_pv := 0, unparseables_row := 0, recovery_attempts := 0 }
  else s

/-- `SerialTarget._handle_unparseable_message` (lines 2139-2187): increments
the unparseable counters; once six or more unparseable lines have arrived in
a row, performs the recovery action selected by
`number_of_recovery_attempts_at_position_and_voltage` — 0: switch the open
connection to the alternative baud rate (guarded by the alternative being
configured, not a dry run, and the primary baud rate being active) and enter
`TRYING_BAUDRATES`; 1: reopen at the primary baud rate, enter `CS_DISABLED`
and request a generator disable; 2: reset the target — then advances the
attempt counter, wrapping to 0 after the third step. Ends with the voltage
reduction check. Returns the escalation step performed, if any. -/
def handle_unparseable_message (cfg : ListenerCfg) (s : ListenerState) :
    ListenerState × Option EscStep :=
  let s0 := { s with
    unparseables_pv := s.unparseables_pv + 1,
    unparseables_row := s.unparseables_row + 1 }
  let t :=
    if s0.unparseables_row ≥ 6 then
      let a :=
        if s0.recovery_attempts = 0 then
          if cfg.alternative_baudrate ≠ none ∧ cfg.dryrun = false ∧
              s0.baudrate = cfg.target_baudrate then
            ({ s0 with
                conn_baudrate := cfg.alternative_baudrate.getD s0.baudrate,
                target_state := .TRYING_BAUDRATES }, some EscStep.baudSwitch)
          else (s0, none)
        else if s0.recovery_attempts = 1 then
          ({ s0 with
              baudrate := cfg.target_baudrate,
              conn_baudrate := cfg.target_baudrate,
              target_state := .CS_DISABLED,
              cs := (request_disable s0.cs "unparseable_signature_check").1 },
            some EscStep.csDisable)
        else if s0.recovery_attempts = 2 then
          (targetResetEffect s0, some EscStep.targetReset)
        else (s0, none)
      let s2 :=
        if a.1.recovery_attempts ≥ 2 then { a.1 with recovery_attempts := 0 }
        else { a.1 with recovery_attempts := a.1.recovery_attempts + 1 }
      (s2, a.2)
    else (s0, none)
  (check_voltage_reduction cfg t.1, t.2)

/-- `SerialTarget._update_state_machine` (lines 2230-2253): the only branch
that changes state moves `NORMAL` to `FIRST_UNPARSEABLE` on an unparseable
line; the remaining branches only annotate the exported parameter log. -/
def update_state_machine (s : ListenerState) (parseable : Bool) : ListenerState :=
  if s.target_state = .NORMAL then
    if parseable = false then { s with target_state := .FIRST_UNPARSEABLE } else s
  else s

/-- `SerialTarget._reset_state_machine` (lines 2257-2271): a parseable line
in any non-`NORMAL` state returns to `NORMAL`, zeroes the consecutive
unparseable counter, and (except when coming from `FIRST_UNPARSEABLE`, and
only with `AUTO_RESET_TARGET`) releases an `"unparseable_signature_check"`
disable hold if one is pending. -/
def reset_state_machine (cfg : ListenerCfg) (s : ListenerState) (parseable : Bool) :
    ListenerState :=
  if parseable = true ∧ s.target_state ≠ .NORMAL then
    let cs1 :=
      if s.target_state ≠ .FIRST_UNPARSEABLE ∧ cfg.auto_reset_target = true ∧
          "unparseable_signature_check" ∈ s.cs.disable_requests then
        (release_disable s.cs "unparseable_signature_check").1
      else s.cs
    { s with unparseables_row := 0, target_state := .NORMAL, cs := cs1 }
  else s

/-- Processing of one received non-banner, non-empty line by the `listen`
loop (lines 2345-2355): the line was classified `parseable` or not, the
matching handler runs (only the unparseable handler touches the ladder
state), then the state machine is updated and possibly reset. Returns the
escalation step performed, if any. -/
def listenEvent (cfg : ListenerCfg) (s : ListenerState) (parseable : Bool) :
    ListenerState × Option EscStep :=
  let t := if parseable = true then (s, none) else handle_unparseable_message cfg s
  let s2 := update_state_machine t.1 parseable
  (reset_state_machine cfg s2 parseable, t.2)

/-- Process a sequence of classified lines, collecting the escalation trace. -/
def runListener (cfg : ListenerCfg) (s : ListenerState) :
    List Bool → ListenerState × List (Option EscStep)
  | [] => (s, [])
  | e :: es =>
    let t := listenEvent cfg s e
    let r := runListener cfg t.1 es
    (r.1, t.2 :: r.2)

/-- Listener state at a freshly started position/voltage: counters zeroed
(`SerialTarget.__init__`, lines 1837-1844, and the resets in `jog`, lines
1205-1207), `NORMAL` state, primary baud rate, generator armed with an empty
disable stack. -/
def freshListener (cfg : ListenerCfg) : ListenerState :=
  { target_state := .NORMAL
    baudrate := cfg.target_baudrate
    conn_baudrate := cfg.target_baudrate
    unparseables_pv := 0
    unparseables_row := 0
    recovery_attempts := 0
    cs := ⟨[], true⟩ }

/-- The documented ladder: step 0 switches baud rate, step 1 disables the
generator, step 2 resets the target. -/
def ladderStep : Nat → EscStep
  | 0 => .baudSwitch
  | 1 => .csDisable
  | _ => .targetReset

/-- Escalation expected at the `j`-th consecutive unparseable line (1-based):
nothing before the sixth, then the ladder steps cyclically. -/
def emissionFor (j : Nat) : Option EscStep :=
  if 6 ≤ j then some (ladderStep ((j - 6) % 3)) else none

/-- Expected escalation trace for `m` further consecutive unparseable lines
after `k` have already been seen in a row. -/
def expectedFrom (k : Nat) : Nat → List (Option EscStep)
  | 0 => []
  | m + 1 => emissionFor (k + 1) :: expectedFrom (k + 1) m

/-- Expected escalation trace for `n` consecutive unparseable lines from a
fresh position/voltage. -/
def expectedEscalations (n : Nat) : List (Option EscStep) :=
  expectedFrom 0 n

/-- Value of `number_of_recovery_attempts_at_position_and_voltage` after `k`
consecutive unparseable lines from a fresh position/voltage: 0 until the
ladder starts at the sixth line, then cycling through 1, 2, 0. -/
def attemptsAfter (k : Nat) : Nat :=
  if k ≤ 5 then 0 else (k - 5) % 3

/-! ### Line classification (`SerialTarget._serial_to_string`, lines 1874-1940) -/

/-- Does the list start with the given pattern? -/
def listStartsWith {α : Type} [DecidableEq α] : List α → List α → Bool
  | _, [] => true
  | [], _ :: _ => false
  | a :: l, b :: p => if a = b then listStartsWith l p else false

/-- Index of the first occurrence of `pat` inside `l` (Python `bytes.find`,
as an `Option` instead of `-1`). -/
def findSubIdx {α : Type} [DecidableEq α] (pat : List α) : List α → Option Nat
  | [] => if pat = [] then some 0 else none
  | a :: t =>
    if listStartsWith (a :: t) pat then some 0
    else (findSubIdx pat t).map (· + 1)

/-- Substring test: does `pat` occur inside `l` (Python `pat in l`)? -/
def containsSub {α : Type} [DecidableEq α] (l pat : List α) : Bool :=
  (findSubIdx pat l).isSome

/-- `PREFIX = b'\x01\xfe\x01\xfe'` (line 154), the static marker in front of
a binary signature payload. -/
def prefixBytes : List Nat := [0x01, 0xfe, 0x01, 0xfe]

/-- Lowercase hex digit for a value below 16 (`binascii.hexlify` digits). -/
def hexDigitChar (n : Nat) : Char :=
  if n < 10 then Char.ofNat (48 + n) else Char.ofNat (87 + n)

/-- `binascii.hexlify(...).decode("ascii")`: two lowercase hex characters per
byte. -/
def hexlify (l : List Nat) : List Char :=
  (l.map (fun b => [hexDigitChar (b / 16), hexDigitChar (b % 16)])).flatten

/-- Value of a lowercase hex digit character. -/
def hexVal (c : Char) : Nat :=
  if 97 ≤ c.toNat then c.toNat - 87 else c.toNat - 48

/-- `binascii.unhexlify` on a lowercase hex string: byte per character pair. -/
def hexToBytes : List Char → List Nat
  | c1 :: c2 :: rest => (16 * hexVal c1 + hexVal c2) :: hexToBytes rest
  | _ => []

/-- Python `str.rstrip(strip)`: remove trailing characters that are members
of the strip set (note: a character set, not a suffix — `rstrip("0d0a")`
strips any run of `'0'`, `'d'`, `'a'`). -/
def rstripChars (strip : List Char) (cs : List Char) : List Char :=
  (cs.reverse.dropWhile (fun c => strip.contains c)).reverse

/-- Python `str.strip()`: remove leading and trailing whitespace. -/
def stripWS (cs : List Char) : List Char :=
  ((cs.dropWhile Char.isWhitespace).reverse.dropWhile Char.isWhitespace).reverse

/-- Is the byte a UTF-8 continuation byte? -/
def isCont (b : Nat) : Bool := 0x80 ≤ b ∧ b ≤ 0xbf

/-- `bytes.decode(errors="replace")`: UTF-8 decoding where an invalid or
truncated sequence yields U+FFFD for the offending byte. One byte is always
consumed per failure, so the list length bounds the recursion (fuel). -/
def utf8DecodeReplaceAux : Nat → List Nat → List Char
  | 0, _ => []
  | _, [] => []
  | fuel + 1, b :: rest =>
    if b < 0x80 then Char.ofNat b :: utf8DecodeReplaceAux fuel rest
    else if 0xc2 ≤ b ∧ b ≤ 0xdf then
      match rest with
      | b2 :: r2 =>
        if isCont b2 then
          Char.ofNat ((b - 0xc0) * 0x40 + (b2 - 0x80)) :: utf8DecodeReplaceAux fuel r2
        else Char.ofNat 0xfffd :: utf8DecodeReplaceAux fuel rest
      | [] => [Char.ofNat 0xfffd]
    else if 0xe0 ≤ b ∧ b ≤ 0xef then
      match rest with
      | b2 :: b3 :: r3 =>
        if isCont b2 ∧ isCont b3 then
          Char.ofNat ((b - 0xe0) * 0x1000 + (b2 - 0x80) * 0x40 + (b3 - 0x80)) ::
            utf8DecodeReplaceAux fuel r3
        else Char.ofNat 0xfffd :: utf8DecodeReplaceAux fuel rest
      | _ => Char.ofNat 0xfffd :: utf8DecodeReplaceAux fuel rest
    else if 0xf0 ≤ b ∧ b ≤ 0xf4 then
      match rest with
      | b2 :: b3 :: b4 :: r4 =>
        if isCont b2 ∧ isCont b3 ∧ isCont b4 then
          Char.ofNat ((b - 0xf0) * 0x40000 + (b2 - 0x80) * 0x1000 +
              (b3 - 0x80) * 0x40 + (b4 - 0x80)) :: utf8DecodeReplaceAux fuel r4
        else Char.ofNat 0xfffd :: utf8DecodeReplaceAux fuel rest
      | _ => Char.ofNat 0xfffd :: utf8DecodeReplaceAux fuel rest
    else Char.ofNat 0xfffd :: utf8DecodeReplaceAux fuel rest

/-- `bytes.decode(errors="replace")` entry point. -/
def utf8DecodeReplace (l : List Nat) : List Char :=
  utf8DecodeReplaceAux l.length l

/-- Split a character list on a separator (Python `str.split(",")`). -/
def splitOnChar (sep : Char) (cs : List Char) : List (List Char) :=
  cs.foldr
    (fun c acc =>
      match acc with
      | [] => [[c]]
      | g :: gs => if c = sep then [] :: g :: gs else (c :: g) :: gs)
    [[]]

/-- ASCII decimal digit test (Python `str.isdigit` on the strings at hand). -/
def isDigitChar (c : Char) : Bool := 48 ≤ c.toNat ∧ c.toNat ≤ 57

/-- `SerialTarget._is_timings` (lines 1884-1887): exactly three
comma-separated parts, each a non-empty digit string after stripping. -/
def is_timings (s : List Char) : Bool :=
  let parts := splitOnChar ',' s
  parts.length = 3 &&
    parts.all (fun p => let q := stripWS p; !q.isEmpty && q.all isDigitChar)

/-- Tolerance check `SerialTarget._is_parseable_string` (lines 1874-1882):
rejects when `abs(len - allowed_length) > max(1, allowed_length * 0.1)` or
`invalid_chars > max(1, len * 0.4)`. The comparisons are between integers and
rationals; they are modelled exactly by scaling through by 10 resp. 5 (the
~1e-16 relative rounding error of the Python floats `0.1` and `0.4` cannot
move an integer across these bounds for any representable length). -/
def is_parseable_string (s : List Char) (allowed_length : Nat)
    (allowed_chars : List Char) : Bool :=
  let invalid_chars : Nat := (s.filter (fun c => !allowed_chars.contains c)).length
  let length_diff : Nat := max s.length allowed_length - min s.length allowed_length
  if 10 * length_diff > max 10 allowed_length ∨ 5 * invalid_chars > max 5 (2 * s.length) then
    false
  else true

/-- The keys of `KEYWORD_HANDLERS` (lines 1645-1686). -/
def keywordHandlersKeys : List (List Char) :=
  ["Signature:", "Message:", "Digest:", "PrivKey_n:", "PrivKey_d:", "PubKey_n:",
    "PubKey_e:", "Timings:", "Pause:", "Alarm:"].map String.toList

/-- The hex alphabet used by the fuzzy checks. -/
def hexChars : List Char := "0123456789abcdef".toList

/-- Deployment configuration consumed by the classifier: the byte length of
`REAL_MSG` and the character lengths of `REAL_DIGEST` and the four RSA key
fields (all placeholders to be filled in by the operator, lines 129-152),
plus `ALARMS_DEFINED` (line 156). -/
structure TargetCfg where
  msgLen : Nat
  digestLen : Nat
  privNLen : Nat
  privDLen : Nat
  pubNLen : Nat
  pubELen : Nat
  alarms : List (List Char)

/-- `SerialTarget._serial_to_string` (lines 1893-1940). A payload containing
`PREFIX` is treated as a signature: everything after the prefix is
hex-encoded, `rstrip("0d0a")`-ed and stripped, and the line is parseable
regardless of content. Otherwise the payload is decoded as text
(`errors="replace"`), the `"\r\n"` terminator and whitespace are stripped,
and the line is parseable iff it is non-empty and passes one of: keyword
match, timings shape, known alarm substring, substring of `"for 30sec"`, or
a fuzzy length/alphabet check against the configured message/digest/key
lengths (the check against the signature length is commented out in the
source). -/
def serial_to_string (cfg : TargetCfg) (payload : List Nat) :
    Bool × Option (List Char) :=
  match findSubIdx prefixBytes payload with
  | some i =>
    let rest := payload.drop (i + prefixBytes.length)
    let s := stripWS (rstripChars ['0', 'd', 'a'] (hexlify rest))
    (true, some s)
  | none =>
    let s := stripWS (rstripChars ['\r', '\n'] (utf8DecodeReplace payload))
    let checks : List Bool :=
      [keywordHandlersKeys.contains s,
        is_timings s,
        cfg.alarms.any (fun a => containsSub s a),
        containsSub ("for 30sec".toList) s,
        is_parseable_string s cfg.msgLen hexChars,
        is_parseable_string s cfg.digestLen hexChars,
        is_parseable_string s cfg.privNLen hexChars,
        is_parseable_string s cfg.privDLen hexChars,
        is_parseable_string s cfg.pubNLen hexChars,
        is_parseable_string s cfg.pubELen hexChars]
    if !s.isEmpty && checks.any id then (true, some s) else (false, some s)

/-- Whether a structurally valid signature payload is recorded as a Confirmed
Fault by `onSignature` (lines 1462-1484): exactly when it differs from
`VALID_SIGNATURE`. -/
def onSignature_is_fault (payload valid : List Char) : Bool :=
  payload ≠ valid

/-- The RSA PKCS#1 v1.5 signature used as the documented example of
`VALID_SIGNATURE` (line 152), as its 256 lowercase hex characters. -/
def validSignatureHex : List Char :=
  ("8f21b2f2c8f3b87617813730134b2de9b75d0a47ee7ddf0b8afedb23961a0c52" ++
    "9f5f0a80c9c473da991833fcc671e8ac97a400bef64658cfab195b506362f45a" ++
    "b4b10e04c4357e7ed0111cf38e60704e10ab0e287f34780162ca1164c0313abf" ++
    "d04ad543e2981d35f3c9c135bea8cc378182fc107b6f49622fc9228eea6c6124").toList

/-- The 128 signature bytes corresponding to `validSignatureHex`. -/
def validSignatureBytes : List Nat := hexToBytes validSignatureHex

/-- A representative deployment configuration: 128-byte message, SHA-256
digest (64 hex characters), 2048-bit RSA keys (512 hex characters for the
moduli and exponents except a short public exponent), and two alarm names. -/
def sampleTargetCfg : TargetCfg :=
  { msgLen := 128
    digestLen := 64
    privNLen := 512
    privDLen := 512
    pubNLen := 512
    pubELen := 6
    alarms := ["ALARM_GLITCH", "ALARM_VCC"].map String.toList }

/-! ### Alarm handler (`onAlarm`, lines 1617-1641) -/

/-- Python exception relevant to `onAlarm`: calling `.strip()` on `None`. -/
inductive PyExc where
  | attributeError
deriving DecidableEq

/-- The `sig_params` context snapshot attached to a record, abstract here. -/
def SigParams : Type := List (String × String)

/-- A Confirmed Alarm record (alarm names plus the context snapshot). -/
structure AlarmRecord where
  alarms : List String
  params : SigParams

/-- `onAlarm(payload_str, sig_params)` (lines 1617-1641) acting on
`CONFIRMED_ALARMS`. The `None` guard (line 1619) only logs and sets a local,
it does not return; the next statement `payload_str.strip()` (line 1623) then
raises `AttributeError` on `None`, so no record is appended. For a string
payload: an empty (after stripping) payload yields an empty alarm list, any
other payload is split on `","` and trimmed (the split on a `str` cannot
fail); a leading `TEST_ALARM` alarm is ignored, anything else is appended as
a Confirmed Alarm record. The alarm-list computation (lines 1623-1633) is
split out as `onAlarm_alarms`. -/
def onAlarm_alarms (s : String) : List String :=
  if s.trim = "" then []
  else (s.splitOn ",").map String.trim

/-- `onAlarm` itself; see the comment on `onAlarm_alarms`. -/
def onAlarm (payload : Option String) (sig_params : SigParams)
    (confirmed : List AlarmRecord) : Except PyExc (List AlarmRecord) :=
  match payload with
  | none => Except.error PyExc.attributeError
  | some s =>
    if (onAlarm_alarms s).length ≥ 1 ∧
        containsSub ((onAlarm_alarms s).headD "").toList ("TEST_ALARM".toList) then
      Except.ok confirmed
    else
      Except.ok (confirmed ++ [{ alarms := onAlarm_alarms s, params := sig_params }])

/-! ### Checkpointing (`save_checkpoint`, lines 2965-2981;
`LoadCheckpointDisplay.select_and_load_checkpoint`, lines 3560-3596) -/

/-- `BOUNDARIES` (lines 202-215): optional millimetre values per axis. -/
structure Boundaries where
  xLeft : Option ℚ
  xRight : Option ℚ
  yUp : Option ℚ
  yDown : Option ℚ
  zUp : Option ℚ
  zDown : Option ℚ
deriving DecidableEq

/-- `CURRENT_POSITION` (lines 222-226). -/
structure Pos3 where
  x : Option ℚ
  y : Option ℚ
  z : Option ℚ
deriving DecidableEq

/-- `REFERENCE_POINT` (lines 217-220). -/
structure Pos2 where
  x : Option ℚ
  y : Option ℚ
deriving DecidableEq

/-- `PAST_TIMINGS` (line 243). -/
structure PastTimings where
  between_trigger_and_signGen_ms : List Int
  trigger_duration_ns : List Int
deriving DecidableEq

/-- The experiment globals touched by checkpoint save/load, generic over the
Confirmed Fault and Confirmed Alarm record types. -/
structure ExpState (F A : Type) where
  boundaries : Boundaries
  current_position : Pos3
  reference_point : Pos2
  tries_left_per_position : Int
  confirmed_faults : List F
  confirmed_alarms : List A
  past_timings : PastTimings
  current_progress : Int
  total_progress : Int
  target_name : String
  starting_position : Option Pos3
  checkpoint_file : String

/-- The serialized checkpoint dictionary (lines 2966-2978). -/
structure Checkpoint (F A : Type) where
  boundaries : Boundaries
  current_position : Pos3
  reference_point : Pos2
  tries_left_per_position : Int
  confirmed_faults : List F
  confirmed_alarms : List A
  past_timings : PastTimings
  current_progress : Int
  total_progress : Int
  target_name : String
  checkpoint_time : String

/-- `save_checkpoint()` (lines 2965-2981): snapshot the globals together with
the current time. -/
def save_checkpoint {F A : Type} (s : ExpState F A) (now : String) : Checkpoint F A :=
  { boundaries := s.boundaries
    current_position := s.current_position
    reference_point := s.reference_point
    tries_left_per_position := s.tries_left_per_position
    confirmed_faults := s.confirmed_faults
    confirmed_alarms := s.confirmed_alarms
    past_timings := s.past_timings
    current_progress := s.current_progress
    total_progress := s.total_progress
    target_name := s.target_name
    checkpoint_time := now }

/-- The restore step of `select_and_load_checkpoint` (lines 3569-3581):
every checkpointed global is overwritten from the checkpoint,
`STARTING_POSITION` is set to the checkpointed position, and
`CHECKPOINT_FILE` to the loaded file name. -/
def load_checkpoint {F A : Type} (s : ExpState F A) (c : Checkpoint F A)
    (fname : String) : ExpState F A :=
  { s with
    boundaries := c.boundaries
    current_position := c.current_position
    reference_point := c.reference_point
    starting_position := some c.current_position
    tries_left_per_position := c.tries_left_per_position
    confirmed_faults := c.confirmed_faults
    confirmed_alarms := c.confirmed_alarms
    past_timings := c.past_timings
    current_progress := c.current_progress
    total_progress := c.total_progress
    target_name := c.target_name
    checkpoint_file := fname }

/-! ## Helper lemmas -/

/-- `request_disable` appends the reason and leaves the generator disarmed;
the disarm command is issued exactly when the generator was armed. -/
theorem request_disable_eq (s : CSState) (r : String) :
    request_disable s r = (⟨s.disable_requests ++ [r], false⟩, s.enabled) := by
  cases s with
  | mk dr en => cases en <;> simp [request_disable, arm]

/-- `release_disable` arms exactly when the remaining stack is empty. -/
theorem release_disable_eq (s : CSState) (r : String) :
    release_disable s r =
      if releasedStack s r = [] then ((⟨[], true⟩ : CSState), true)
      else ((⟨releasedStack s r, s.enabled⟩ : CSState), false) := by
  cases s with
  | mk dr en =>
    unfold release_disable releasedStack arm
    by_cases h1 : dr = []
    · simp [h1]
    · by_cases h2 : r ∈ dr
      · by_cases h3 : dr.erase r = [] <;> simp [h1, h2, h3]
      · by_cases h3 : dr.dropLast = [] <;> simp [h1, h2, h3]

/-- Both disable-stack calls preserve the armed-iff-empty invariant. -/
theorem applyCSOp_preserves (s : CSState) (op : CSOp) (h : csArmedIffEmpty s) :
    csArmedIffEmpty (applyCSOp s op) := by
  cases op with
  | request r =>
    simp [applyCSOp, request_disable_eq, csArmedIffEmpty]
  | release r =>
    simp only [applyCSOp, release_disable_eq]
    by_cases hs : releasedStack s r = []
    · simp [hs, csArmedIffEmpty]
    · simp only [hs, if_neg, csArmedIffEmpty]
      constructor
      · intro he
        exfalso
        apply hs
        have hdr : s.disable_requests = [] := h.mp he
        simp [releasedStack, hdr]
      · intro he
        exact absurd he hs

/-- A `failed_on` marker, once set, can never lead `selfheal` to report that
no check-triggered repair was needed: every continuation (including the
`except`-branch ones, which keep the marker) preserves a non-empty marker. -/
theorem selfhealLoop_ne_some_true (obs : Nat → HealObs) :
    ∀ (fuel i : Nat) (f : String), f ≠ "" → selfhealLoop obs fuel i f ≠ some true := by
  intro fuel
  induction fuel with
  | zero => intro i f _; simp [selfhealLoop]
  | succ n ih =>
    intro i f hf
    unfold selfhealLoop
    cases h1 : (obs i).connected with
    | false =>
      simpa [h1] using ih (i + 1) "connection" (by decide)
    | true =>
      cases h2 : (obs i).faultState with
      | none => simpa [h1, h2] using ih (i + 1) f hf
      | some fs =>
        cases fs with
        | true =>
          by_cases h3 : f = "fault"
          · simpa [h1, h2, h3] using ih (i + 1) "fault" (by decide)
          · cases h4 : (obs i).armMismatch with
            | none => simpa [h1, h2, h3, h4] using ih (i + 1) "fault" (by decide)
            | some am => cases am <;> simp [h1, h2, h3, h4]
        | false =>
          cases h4 : (obs i).armMismatch with
          | none => simpa [h1, h2, h4] using ih (i + 1) f hf
          | some am =>
            cases am with
            | true =>
              by_cases h5 : f = "arm"
              · simpa [h1, h2, h4, h5] using ih (i + 1) "arm" (by decide)
              · simp [h1, h2, h4, h5]
            | false => simp [h1, h2, h4, hf]

/-- `selfhealLoop` started with an empty `failed_on` marker returns `True`
exactly when some iteration within the fuel completes with every check
passing while all earlier iterations were probe-exception iterations that
preserved the empty marker (each of which reset the device via the `except`
branch without recording a repair). -/
theorem selfhealLoop_empty_characterization (obs : Nat → HealObs) :
    ∀ (fuel i : Nat),
      selfhealLoop obs fuel i "" = some true ↔
        ∃ j, i ≤ j ∧ j < i + fuel ∧ healAllPass (obs j)
          ∧ ∀ m, i ≤ m → m < j → healPreservesEmpty (obs m) := by
  intro fuel
  induction fuel with
  | zero =>
    intro i
    constructor
    · intro h; simp [selfhealLoop] at h
    · rintro ⟨j, hj1, hj2, _, _⟩; omega
  | succ n ih =>
    intro i
    have hshift : healPreservesEmpty (obs i) → ¬ healAllPass (obs i) →
        ((∃ j, i + 1 ≤ j ∧ j < (i + 1) + n ∧ healAllPass (obs j)
            ∧ ∀ m, i + 1 ≤ m → m < j → healPreservesEmpty (obs m)) ↔
          (∃ j, i ≤ j ∧ j < i + (n + 1) ∧ healAllPass (obs j)
            ∧ ∀ m, i ≤ m → m < j → healPreservesEmpty (obs m))) := by
      intro hQ hnP
      constructor
      · rintro ⟨j, hj1, hj2, hj3, hj4⟩
        refine ⟨j, by omega, by omega, hj3, ?_⟩
        intro m hm1 hm2
        rcases Nat.eq_or_lt_of_le hm1 with rfl | hm1'
        · exact hQ
        · exact hj4 m hm1' hm2
      · rintro ⟨j, hj1, hj2, hj3, hj4⟩
        have hji : i ≠ j := by rintro rfl; exact hnP hj3
        refine ⟨j, by omega, by omega, hj3, ?_⟩
        intro m hm1 hm2
        exact hj4 m (by omega) hm2
    have hdead : ¬ healPreservesEmpty (obs i) → ¬ healAllPass (obs i) →
        ¬ ∃ j, i ≤ j ∧ j < i + (n + 1) ∧ healAllPass (obs j)
            ∧ ∀ m, i ≤ m → m < j → healPreservesEmpty (obs m) := by
      intro hnQ hnP
      rintro ⟨j, hj1, hj2, hj3, hj4⟩
      rcases Nat.eq_or_lt_of_le hj1 with rfl | hj1'
      · exact hnP hj3
      · exact hnQ (hj4 i le_rfl hj1')
    cases h1 : (obs i).connected with
    | false =>
      have hred : selfhealLoop obs (n + 1) i "" =
          selfhealLoop obs n (i + 1) "connection" := by
        conv_lhs => unfold selfhealLoop
        simp [h1]
      rw [hred]
      constructor
      · intro h
        exact absurd h (selfhealLoop_ne_some_true obs n (i + 1) "connection" (by decide))
      · intro hR
        exact absurd hR (hdead
          (fun hQ => by simp [healPreservesEmpty, h1] at hQ)
          (fun hP => by simp [healAllPass, h1] at hP))
    | true =>
      cases h2 : (obs i).faultState with
      | none =>
        have hQ : healPreservesEmpty (obs i) := ⟨h1, Or.inl h2⟩
        have hnP : ¬ healAllPass (obs i) := by
          rintro ⟨_, hF, _⟩
          rw [h2] at hF
          simp at hF
        have hred : selfhealLoop obs (n + 1) i "" = selfhealLoop obs n (i + 1) "" := by
          conv_lhs => unfold selfhealLoop
          simp [h1, h2]
        rw [hred, ih (i + 1)]
        exact hshift hQ hnP
      | some fs =>
        cases fs with
        | true =>
          have hnQ : ¬ healPreservesEmpty (obs i) := by
            rintro ⟨_, hF | ⟨hF, _⟩⟩ <;> rw [h2] at hF <;> simp at hF
          have hnP : ¬ healAllPass (obs i) := by
            rintro ⟨_, hF, _⟩
            rw [h2] at hF
            simp at hF
          constructor
          · intro h
            exfalso
            cases h4 : (obs i).armMismatch with
            | none =>
              have hred : selfhealLoop obs (n + 1) i "" =
                  selfhealLoop obs n (i + 1) "fault" := by
                conv_lhs => unfold selfhealLoop
                simp [h1, h2, h4]
              rw [hred] at h
              exact absurd h (selfhealLoop_ne_some_true obs n (i + 1) "fault" (by decide))
            | some am =>
              cases am with
              | true =>
                have hred : selfhealLoop obs (n + 1) i "" = some false := by
                  unfold selfhealLoop
                  simp [h1, h2, h4]
                rw [hred] at h
                simp at h
              | false =>
                have hred : selfhealLoop obs (n + 1) i "" = some false := by
                  unfold selfhealLoop
                  simp [h1, h2, h4]
                rw [hred] at h
                simp at h
          · intro hR
            exact absurd hR (hdead hnQ hnP)
        | false =>
          cases h4 : (obs i).armMismatch with
          | none =>
            have hQ : healPreservesEmpty (obs i) := ⟨h1, Or.inr ⟨h2, h4⟩⟩
            have hnP : ¬ healAllPass (obs i) := by
              rintro ⟨_, _, hF⟩
              rw [h4] at hF
              simp at hF
            have hred : selfhealLoop obs (n + 1) i "" = selfhealLoop obs n (i + 1) "" := by
              conv_lhs => unfold selfhealLoop
              simp [h1, h2, h4]
            rw [hred, ih (i + 1)]
            exact hshift hQ hnP
          | some am =>
            cases am with
            | true =>
              have hnQ : ¬ healPreservesEmpty (obs i) := by
                rintro ⟨_, hF | ⟨_, hF⟩⟩
                · rw [h2] at hF; simp at hF
                · rw [h4] at hF; simp at hF
              have hnP : ¬ healAllPass (obs i) := by
                rintro ⟨_, _, hF⟩
                rw [h4] at hF
                simp at hF
              have hred : selfhealLoop obs (n + 1) i "" = some false := by
                unfold selfhealLoop
                simp [h1, h2, h4]
              rw [hred]
              constructor
              · intro h
                exact absurd (Option.some.inj h) (by simp)
              · intro hR
                exact absurd hR (hdead hnQ hnP)
            | false =>
              have hP : healAllPass (obs i) := ⟨h1, h2, h4⟩
              have hred : selfhealLoop obs (n + 1) i "" = some true := by
                unfold selfhealLoop
                simp [h1, h2, h4]
              rw [hred]
              constructor
              · intro _
                exact ⟨i, le_rfl, by omega, hP, fun m hm1 hm2 => absurd hm2 (by omega)⟩
              · intro _
                rfl

/-! ## Claim theorems -/

/-- Claim C1: for all sequences of `request_disable`/`release_disable` calls,
the generator is armed iff the disable stack is empty; the disarm command is
issued exactly on a push onto an empty stack (i.e. when the generator was
armed, which under the invariant is exactly when the stack was empty); the
arm command is issued exactly when the stack is empty after the release; and
a release from an empty stack leaves the stack empty (the stack is a list,
it can never go negative). -/
theorem C1_disable_stack_invariant (s : CSState) (ops : List CSOp)
    (h : csArmedIffEmpty s) :
    csArmedIffEmpty (runCSOps s ops)
    ∧ (∀ r, ((request_disable s r).2 = true ↔ s.disable_requests = []))
    ∧ (∀ r, ((release_disable s r).2 = true ↔
        (release_disable s r).1.disable_requests = []))
    ∧ (∀ r, s.disable_requests = [] →
        (release_disable s r).1.disable_requests = []) := by
  refine ⟨?_, ?_, ?_, ?_⟩
  · induction ops generalizing s with
    | nil => exact h
    | cons op rest ih => exact ih _ (applyCSOp_preserves s op h)
  · intro r
    rw [request_disable_eq]
    exact h
  · intro r
    rw [release_disable_eq]
    by_cases hs : releasedStack s r = [] <;> simp [hs]
  · intro r hdr
    rw [release_disable_eq]
    have hs : releasedStack s r = [] := by simp [releasedStack, hdr]
    simp [hs]

/-- Witness for C1 at a concrete armed state and call sequence. -/
theorem C1_disable_stack_invariant_witness :
    csArmedIffEmpty ⟨[], true⟩
    ∧ csArmedIffEmpty (runCSOps ⟨[], true⟩
        [CSOp.request "jogging", CSOp.request "user",
          CSOp.release "jogging", CSOp.release "user"]) :=
  ⟨by decide, (C1_disable_stack_invariant ⟨[], true⟩
    [CSOp.request "jogging", CSOp.request "user",
      CSOp.release "jogging", CSOp.release "user"] (by decide)).1⟩

/-- Claim C3: processing a signature event keeps the remaining-tries counter
within `0 ≤ tries ≤ tries-per-position` — it either decrements within bounds
or, when the budget is exhausted and the position advances, resets it to
`TRIES_PER_POSITION`. -/
theorem C3_tries_invariant (csEnabled : Bool) (tpp t : Int)
    (h1 : 1 ≤ tpp) (h2 : 0 ≤ t) (h3 : t ≤ tpp) :
    0 ≤ onSignature_tries csEnabled true tpp t
    ∧ onSignature_tries csEnabled true tpp t ≤ tpp := by
  unfold onSignature_tries
  split_ifs with ha hb
  · exact ⟨h2, h3⟩
  · exact ⟨by omega, le_refl tpp⟩
  · rw [not_and_or] at hb
    rcases hb with hb | hb
    · constructor <;> omega
    · exact absurd rfl hb

/-- Witness for C3 at a concrete budget. -/
theorem C3_tries_invariant_witness :
    ((1 : Int) ≤ 300 ∧ (0 : Int) ≤ 1 ∧ (1 : Int) ≤ 300)
    ∧ (0 ≤ onSignature_tries true true 300 1
        ∧ onSignature_tries true true 300 1 ≤ 300) :=
  ⟨by decide, C3_tries_invariant true 300 1 (by decide) (by decide) (by decide)⟩

/-- Counterexample to claim C5 as stated: when every diagnostic check passes
on the first pass and no repair is performed, `selfheal` returns `True`, not
`False` — the claim has the return value inverted. -/
theorem C5_selfheal_counterexample :
    selfheal (fun _ => ⟨true, some false, some false⟩) 1 = some true
    ∧ selfheal (fun _ => ⟨true, some false, some false⟩) 1 ≠ some false := by
  constructor
  · rfl
  · decide

/-- Claim C5 (amended): the return value of `selfheal` reports only whether a
check-triggered repair was recorded in `failed_on`, inverted with respect to
the claim: it returns `True` exactly when some pass completes with every
check (connectivity, fault status, arm/disarm correctness) passing while
every earlier pass was aborted by a probe exception before any check failed
— such passes reset the device via the `except` branch (lines 2858-2868) and
continue with `failed_on` unchanged, so `True` can be returned even though
reset repairs happened. It returns `False` whenever a failed check led to a
repair attempt. -/
theorem C5_selfheal_return_characterization (obs : Nat → HealObs) (fuel : Nat) :
    selfheal obs fuel = some true ↔
      ∃ j, j < fuel ∧ healAllPass (obs j)
        ∧ ∀ m, m < j → healPreservesEmpty (obs m) := by
  unfold selfheal
  rw [selfhealLoop_empty_characterization obs fuel 0]
  constructor
  · rintro ⟨j, _, hj2, hj3, hj4⟩
    exact ⟨j, by omega, hj3, fun m hm => hj4 m (by omega) (by omega)⟩
  · rintro ⟨j, hj1, hj2, hj3⟩
    exact ⟨j, by omega, by omega, hj2, fun m _ hm => hj3 m hm⟩

/-- Witness for C5 (amended) at the run the source permits: a probe
exception on pass 0 (reset repair through the `except` branch), then a clean
pass 1 — `selfheal` still returns `True`. -/
theorem C5_selfheal_return_characterization_witness :
    (selfheal (fun i => if i = 0 then ⟨true, none, none⟩
        else ⟨true, some false, some false⟩) 2 = some true ↔
      ∃ j, j < 2
        ∧ healAllPass ((fun i => if i = 0 then (⟨true, none, none⟩ : HealObs)
            else ⟨true, some false, some false⟩) j)
        ∧ ∀ m, m < j →
            healPreservesEmpty ((fun i => if i = 0 then (⟨true, none, none⟩ : HealObs)
              else ⟨true, some false, some false⟩) m))
    ∧ selfheal (fun i => if i = 0 then ⟨true, none, none⟩
        else ⟨true, some false, some false⟩) 2 = some true :=
  ⟨C5_selfheal_return_characterization
      (fun i => if i = 0 then ⟨true, none, none⟩ else ⟨true, some false, some false⟩) 2,
    by decide⟩

/-- Claim C6: a voltage request below the configured minimum, above the
maximum, or incompatible with the current dead-time (the 30 V/ms charge-rate
bound) is rejected: the last-known-good state is unchanged and no device
write happens. -/
theorem C6_change_voltage_rejects (minV maxV : Int) (st : ChangeState) (v : Int)
    (h : v < minV ∨ maxV < v ∨ st.deadTime < Int.fdiv v 30 + 1) :
    change_voltage minV maxV st v = (st, false) := by
  unfold change_voltage
  split_ifs with h1 h2 h3
  · rfl
  · rfl
  · rfl
  · exfalso
    rcases h with h | h | h
    · exact h2 (Or.inl h)
    · exact h2 (Or.inr h)
    · exact h3 h

/-- Witness for C6: a request below the minimum is rejected unchanged. -/
theorem C6_change_voltage_rejects_witness :
    ((100 : Int) < 150 ∨ (500 : Int) < 100 ∨ (17 : Int) < Int.fdiv 100 30 + 1)
    ∧ change_voltage 150 500 ⟨280, 17⟩ 100 = (⟨280, 17⟩, false) :=
  ⟨Or.inl (by decide),
    C6_change_voltage_rejects 150 500 ⟨280, 17⟩ 100 (Or.inl (by decide))⟩

/-- Claim C8: reloading a checkpoint written mid-run restores the boundaries,
reference point, current position, remaining tries and the confirmed
fault/alarm lists, whatever state the process is in when loading; and saving
again immediately after loading (same timestamp) produces an equal snapshot. -/
theorem C8_checkpoint_roundtrip {F A : Type} (s s2 : ExpState F A)
    (now fname : String) :
    (load_checkpoint s2 (save_checkpoint s now) fname).boundaries = s.boundaries
    ∧ (load_checkpoint s2 (save_checkpoint s now) fname).reference_point
        = s.reference_point
    ∧ (load_checkpoint s2 (save_checkpoint s now) fname).current_position
        = s.current_position
    ∧ (load_checkpoint s2 (save_checkpoint s now) fname).tries_left_per_position
        = s.tries_left_per_position
    ∧ (load_checkpoint s2 (save_checkpoint s now) fname).confirmed_faults
        = s.confirmed_faults
    ∧ (load_checkpoint s2 (save_checkpoint s now) fname).confirmed_alarms
        = s.confirmed_alarms
    ∧ save_checkpoint (load_checkpoint s2 (save_checkpoint s now) fname) now
        = save_checkpoint s now :=
  ⟨rfl, rfl, rfl, rfl, rfl, rfl, rfl⟩

/-- Claim C9: releasing a reason that is not on the non-empty disable stack
removes the most recently pushed reason instead of being a no-op, and if the
stack thereby becomes empty the generator is armed. -/
theorem C9_release_mismatched_pops_last (s : CSState) (r : String)
    (h1 : s.disable_requests ≠ []) (h2 : r ∉ s.disable_requests) :
    (release_disable s r).1.disable_requests = s.disable_requests.dropLast
    ∧ ((release_disable s r).2 = true ↔ s.disable_requests.dropLast = [])
    ∧ (s.disable_requests.dropLast = [] → (release_disable s r).1.enabled = true) := by
  have hrel : releasedStack s r = s.disable_requests.dropLast := by
    simp [releasedStack, h1, h2]
  rw [release_disable_eq, hrel]
  by_cases h3 : s.disable_requests.dropLast = [] <;> simp [h3]

/-- Witness for C9: a mismatched release cancels the only outstanding hold
and arms the generator. -/
theorem C9_release_mismatched_pops_last_witness :
    ((["jogging"] : List String) ≠ [] ∧ "user" ∉ (["jogging"] : List String))
    ∧ ((release_disable ⟨["jogging"], false⟩ "user").1.disable_requests
        = (["jogging"] : List String).dropLast
      ∧ ((release_disable ⟨["jogging"], false⟩ "user").2 = true ↔
          (["jogging"] : List String).dropLast = [])
      ∧ ((["jogging"] : List String).dropLast = [] →
          (release_disable ⟨["jogging"], false⟩ "user").1.enabled = true)) :=
  ⟨by decide,
    C9_release_mismatched_pops_last ⟨["jogging"], false⟩ "user" (by decide) (by decide)⟩

/-- Claim C10: `onAlarm` with a `None` payload raises instead of completing
(its `None` guard does not return, and the following emptiness check
dereferences the `None`), so no Confirmed Alarm record is appended; for
every string payload the handler completes normally. -/
theorem C10_onAlarm_none_raises :
    (∀ (p : SigParams) (acc : List AlarmRecord),
        onAlarm none p acc = Except.error PyExc.attributeError
        ∧ ∀ l, onAlarm none p acc ≠ Except.ok l)
    ∧ (∀ (s : String) (p : SigParams) (acc : List AlarmRecord),
        ∃ l, onAlarm (some s) p acc = Except.ok l) := by
  constructor
  · intro p acc
    refine ⟨rfl, fun l hl => ?_⟩
    simp [onAlarm] at hl
  · intro s p acc
    by_cases hc : (onAlarm_alarms s).length ≥ 1 ∧
        containsSub ((onAlarm_alarms s).headD "").toList ("TEST_ALARM".toList) = true
    · exact ⟨acc, if_pos hc⟩
    · refine ⟨acc ++ [{ alarms := onAlarm_alarms s, params := p }], ?_⟩
      unfold onAlarm
      exact if_neg hc

/-- Witness for C10: the `None` payload raises and a concrete alarm string
completes normally. -/
theorem C10_onAlarm_none_raises_witness :
    onAlarm none [] [] = Except.error PyExc.attributeError
    ∧ ∃ l, onAlarm (some "ALARM_VCC") [] [] = Except.ok l :=
  ⟨(C10_onAlarm_none_raises.1 [] []).1, C10_onAlarm_none_raises.2 "ALARM_VCC" [] []⟩

set_option maxRecDepth 8000 in
/-- Claim C4: for boundaries X:[10,0], Y:[10,0] and step 1, starting at the
upper-left corner heading right, the raster visits exactly the 121 cells of
the 11x11 grid, each exactly once, in boustrophedon order (X alternating
direction each row, Y advancing one step at each X boundary), and the scan
terminates exactly when Y would pass its lower boundary. -/
theorem C4_raster_scan_boustrophedon :
    scanTrajectory ⟨1, 10, 0, 0⟩ 200 ⟨10, 10, Dir.right⟩ = (boustrophedonOrder, true)
    ∧ boustrophedonOrder.length = 121
    ∧ boustrophedonOrder.Nodup
    ∧ (∀ x ∈ Finset.Icc (0 : Int) 10, ∀ y ∈ Finset.Icc (0 : Int) 10,
        (x, y) ∈ boustrophedonOrder)
    ∧ (∀ q ∈ boustrophedonOrder, 0 ≤ q.1 ∧ q.1 ≤ 10 ∧ 0 ≤ q.2 ∧ q.2 ≤ 10) := by
  decide

/-- Witness for C4: the corner cell (0, 0) is covered. -/
theorem C4_raster_scan_boustrophedon_witness :
    ((0 : Int), (0 : Int)) ∈ boustrophedonOrder :=
  C4_raster_scan_boustrophedon.2.2.2.1 0 (by decide) 0 (by decide)

set_option maxRecDepth 8000 in
/-- Counterexample to claim C7 as stated: a grossly truncated signature line
(the 4-byte prefix followed by only 3 of the 128 signature bytes) still
classifies as parseable, because any line containing the prefix is treated
as a structurally valid signature regardless of length — it does not
classify as unparseable. -/
theorem C7_classification_counterexample :
    (serial_to_string sampleTargetCfg (prefixBytes ++ validSignatureBytes.take 3)).1
      = true := by
  decide

set_option maxRecDepth 8000 in
/-- Claim C7 (amended): the prefix followed by exactly the known-valid
signature bytes classifies as parseable with payload equal to the reference
signature; the all-0xFF corruption of the payload with length preserved
classifies as parseable with a same-length, non-matching payload, which
`onSignature` records as a detected fault; a truncated line that still
contains the prefix classifies as parseable regardless of length (never
unparseable); classification as unparseable requires the prefix to be
absent, e.g. an all-0xFF line of grossly different length without the
prefix is unparseable. -/
theorem C7_classification_amended :
    serial_to_string sampleTargetCfg (prefixBytes ++ validSignatureBytes)
      = (true, some validSignatureHex)
    ∧ serial_to_string sampleTargetCfg (prefixBytes ++ List.replicate 128 0xff)
      = (true, some (List.replicate 256 'f'))
    ∧ (List.replicate 256 'f').length = validSignatureHex.length
    ∧ onSignature_is_fault (List.replicate 256 'f') validSignatureHex = true
    ∧ onSignature_is_fault validSignatureHex validSignatureHex = false
    ∧ (serial_to_string sampleTargetCfg (prefixBytes ++ validSignatureBytes.take 3)).1
        = true
    ∧ (serial_to_string sampleTargetCfg (List.replicate 10 0xff)).1 = false := by
  decide

/-- The recovery-attempt counter stays below 3. -/
theorem attemptsAfter_lt_three (k : Nat) : attemptsAfter k < 3 := by
  unfold attemptsAfter
  split_ifs <;> omega

/-- `handle_unparseable_message` under the ladder invariant (counters at `k`,
attempts at `attemptsAfter k`, primary baud rate active): the escalation step
emitted at the `(k+1)`-th consecutive unparseable line is `emissionFor (k+1)`
and the counters advance to `k + 1`. -/
theorem handle_unparseable_spec (cfg : ListenerCfg) (s : ListenerState) (k : Nat)
    (halt : cfg.alternative_baudrate ≠ none) (hdry : cfg.dryrun = false)
    (hrow : s.unparseables_row = k) (hpv : s.unparseables_pv = k)
    (hatt : s.recovery_attempts = attemptsAfter k)
    (hbaud : s.baudrate = cfg.target_baudrate)
    (hthr : k + 1 < max (cfg.tries_per_position / 3) 10) :
    (handle_unparseable_message cfg s).2 = emissionFor (k + 1)
    ∧ (handle_unparseable_message cfg s).1.unparseables_row = k + 1
    ∧ (handle_unparseable_message cfg s).1.unparseables_pv = k + 1
    ∧ (handle_unparseable_message cfg s).1.recovery_attempts = attemptsAfter (k + 1)
    ∧ (handle_unparseable_message cfg s).1.baudrate = cfg.target_baudrate := by
  unfold handle_unparseable_message check_voltage_reduction targetResetEffect
  simp only [hrow, hpv, hatt, hbaud]
  by_cases hk6 : 6 ≤ k + 1
  · have hk5 : 5 ≤ k := by omega
    have ha : attemptsAfter k = (k - 5) % 3 := by
      unfold attemptsAfter
      split_ifs with h <;> omega
    have ha1 : attemptsAfter (k + 1) = (k - 4) % 3 := by
      unfold attemptsAfter
      split_ifs with h <;> omega
    have hemi : emissionFor (k + 1) = some (ladderStep ((k - 5) % 3)) := by
      have hidx : k + 1 - 6 = k - 5 := by omega
      unfold emissionFor
      rw [if_pos hk6, hidx]
    have h3 : (k - 5) % 3 = 0 ∨ (k - 5) % 3 = 1 ∨ (k - 5) % 3 = 2 := by omega
    rcases h3 with h3 | h3 | h3 <;>
      simp [ha, ha1, h3, hemi, hk6, halt, hdry, ladderStep, if_neg, hthr,
        Nat.not_le.mpr hthr] <;>
      try omega
  · have ha0 : attemptsAfter k = 0 := by
      unfold attemptsAfter
      split_ifs with h <;> omega
    have ha1 : attemptsAfter (k + 1) = 0 := by
      unfold attemptsAfter
      split_ifs with h <;> omega
    have hemi : emissionFor (k + 1) = none := by
      unfold emissionFor
      rw [if_neg hk6]
    simp [hk6, ha0, ha1, hemi, Nat.not_le.mpr hthr]

/-- One unparseable line processed while the ladder invariant holds after `k`
consecutive unparseable lines: the expected escalation is emitted and the
invariant moves to `k + 1`. -/
theorem listen_unparseable_step (cfg : ListenerCfg) (s : ListenerState) (k : Nat)
    (halt : cfg.alternative_baudrate ≠ none) (hdry : cfg.dryrun = false)
    (hrow : s.unparseables_row = k) (hpv : s.unparseables_pv = k)
    (hatt : s.recovery_attempts = attemptsAfter k)
    (hbaud : s.baudrate = cfg.target_baudrate)
    (hthr : k + 1 < max (cfg.tries_per_position / 3) 10) :
    (listenEvent cfg s false).2 = emissionFor (k + 1)
    ∧ (listenEvent cfg s false).1.unparseables_row = k + 1
    ∧ (listenEvent cfg s false).1.unparseables_pv = k + 1
    ∧ (listenEvent cfg s false).1.recovery_attempts = attemptsAfter (k + 1)
    ∧ (listenEvent cfg s false).1.baudrate = cfg.target_baudrate := by
  have hh := handle_unparseable_spec cfg s k halt hdry hrow hpv hatt hbaud hthr
  simp only [listenEvent, Bool.false_eq_true, if_neg, ite_false, update_state_machine,
    reset_state_machine, false_and, if_false]
  rcases hh with ⟨h1, h2, h3, h4, h5⟩
  by_cases hn : (handle_unparseable_message cfg s).1.target_state = OperationalState.NORMAL <;>
    simp [hn, h1, h2, h3, h4, h5]

/-- Escalation trace of a run of consecutive unparseable lines, from any
state satisfying the ladder invariant at `k`, while the per-position
unparseable count stays below the voltage-reduction threshold. -/
theorem runListener_unparseable_trace (cfg : ListenerCfg)
    (halt : cfg.alternative_baudrate ≠ none) (hdry : cfg.dryrun = false) :
    ∀ (m k : Nat) (s : ListenerState),
      s.unparseables_row = k → s.unparseables_pv = k →
      s.recovery_attempts = attemptsAfter k → s.baudrate = cfg.target_baudrate →
      k + m < max (cfg.tries_per_position / 3) 10 →
      (runListener cfg s (List.replicate m false)).2 = expectedFrom k m := by
  intro m
  induction m with
  | zero =>
    intro k s _ _ _ _ _
    simp [runListener, expectedFrom, List.replicate]
  | succ n ih =>
    intro k s hrow hpv hatt hbaud hthr
    have hstep := listen_unparseable_step cfg s k halt hdry hrow hpv hatt hbaud (by omega)
    rcases hstep with ⟨h1, h2, h3, h4, h5⟩
    have htail := ih (k + 1) (listenEvent cfg s false).1 h2 h3 h4 h5 (by omega)
    show (runListener cfg s (false :: List.replicate n false)).2 = expectedFrom k (n + 1)
    unfold runListener
    rw [expectedFrom]
    simp only [htail, h1]

/-- Claim C2: from a fresh position/voltage, with the fallback baud rate
configured and real hardware, a run of `n` consecutive unparseable lines
(below the voltage-reduction threshold) produces exactly the escalation
trace `expectedEscalations n`: no step before the sixth line, then exactly
one ladder step per line at or beyond the threshold, in the fixed order
baud-switch, generator-disable, target-reset, cycling after three
escalations; by `emissionFor`, consecutive escalations are never the same
step, and a parseable line emits no escalation and zeroes the consecutive
unparseable counter (so the threshold must be crossed afresh). -/
theorem C2_escalation_ladder (cfg : ListenerCfg) (n : Nat)
    (halt : cfg.alternative_baudrate ≠ none) (hdry : cfg.dryrun = false)
    (hthr : n < max (cfg.tries_per_position / 3) 10) :
    (runListener cfg (freshListener cfg) (List.replicate n false)).2
      = expectedEscalations n
    ∧ (∀ j, j < 6 → emissionFor j = none)
    ∧ (∀ j, 6 ≤ j → emissionFor j = some (ladderStep ((j - 6) % 3)))
    ∧ (∀ j, 6 ≤ j → emissionFor j ≠ emissionFor (j + 1))
    ∧ (∀ s : ListenerState, (listenEvent cfg s true).2 = none
        ∧ (s.target_state ≠ .NORMAL →
            (listenEvent cfg s true).1.unparseables_row = 0)) := by
  refine ⟨?_, ?_, ?_, ?_, ?_⟩
  · exact runListener_unparseable_trace cfg halt hdry n 0 (freshListener cfg)
      rfl rfl rfl rfl (by omega)
  · intro j hj
    unfold emissionFor
    rw [if_neg (by omega)]
  · intro j hj
    unfold emissionFor
    rw [if_pos hj]
  · intro j hj
    have h6 : 6 ≤ j + 1 := by omega
    have hcases : (j - 6) % 3 = 0 ∧ (j + 1 - 6) % 3 = 1
        ∨ (j - 6) % 3 = 1 ∧ (j + 1 - 6) % 3 = 2
        ∨ (j - 6) % 3 = 2 ∧ (j + 1 - 6) % 3 = 0 := by omega
    unfold emissionFor
    rw [if_pos hj, if_pos h6]
    rcases hcases with ⟨ha, hb⟩ | ⟨ha, hb⟩ | ⟨ha, hb⟩ <;>
      rw [ha, hb] <;> simp [ladderStep]
  · intro s
    constructor
    · rfl
    · intro hns
      simp [listenEvent, update_state_machine, reset_state_machine, hns]

/-- Witness for C2 at the shipped configuration (primary baud 115200,
fallback 73529, 300 tries per position) and a run of 12 unparseable lines. -/
theorem C2_escalation_ladder_witness :
    ((some 73529 : Option Nat) ≠ none ∧ (false = false)
      ∧ (12 : Nat) < max (300 / 3) 10)
    ∧ (runListener ⟨115200, some 73529, false, true, 300⟩
        (freshListener ⟨115200, some 73529, false, true, 300⟩)
        (List.replicate 12 false)).2 = expectedEscalations 12 :=
  ⟨⟨by decide, rfl, by decide⟩,
    (C2_escalation_ladder ⟨115200, some 73529, false, true, 300⟩ 12
      (by decide) rfl (by decide)).1⟩

end Emfi
